import Mathlib

/-!
Verification development for the `ebay_keyword_search` repository.

The two files under scrutiny are
`extract_ebay_seller_hub_config.py` (namespace `ConfigScript` below) and
`extract_watch_model_numbers_universal.py` (namespace `UniversalScript`).

Conventions of the embedding:
* Python floats are modelled as exact rationals (`ℚ`).  Every numeric
  constant appearing in the claims (0.2, 3000, 150.0, ...) is decimal and
  the arithmetic of the examples is exact in binary floating point as
  well, so the verdicts agree with the Python behaviour.
* Python regular expressions are embedded by a small backtracking
  matcher over an explicit pattern datatype (`REl`, `CPat`, `UPat`).
  All patterns of the source fit a linear shape: a sequence of
  character-class repetitions, optional word boundaries at both ends,
  an optional trailing lookahead, and (for the calibre patterns) an
  ordered alternation prefix followed by a captured digit group.
  `re.IGNORECASE` is reflected by case-insensitive character classes
  (ASCII case folding; the Japanese characters appearing in the data
  have no case).  `\w` (for `\b`) is approximated by ASCII
  alphanumerics, underscore, kana and CJK ideographs, which covers all
  characters occurring in this development.  Input strings are assumed
  newline-free when interpreting the `.*` inside lookaheads.
* `list(set(xs))` in CPython iterates a hash table whose order is
  randomised per process (PYTHONHASHSEED); it is modelled by the
  relation `isSetDedup xs out` stating that `out` is duplicate-free and
  has the same members as `xs`, with the order left unspecified.
-/

/-- Case-insensitive (ASCII) equality with a fixed character, used for
regex literals under `re.IGNORECASE`. -/
def charCI (c x : Char) : Bool :=
  c.toLower = x.toLower

/-- The class `\d` (ASCII digits; the inputs contain no other Unicode
decimal digits). -/
def isDig (c : Char) : Bool :=
  c.isDigit

/-- The class `[A-Z]` under `re.IGNORECASE`: any ASCII letter. -/
def isAlphaCI (c : Char) : Bool :=
  c.isAlpha

/-- The class `\s` (whitespace). -/
def isWs (c : Char) : Bool :=
  c.isWhitespace

/-- Python's `\w` for the purposes of `\b`: ASCII alphanumerics,
underscore, kana and CJK ideographs (the character repertoire of this
development). -/
def isWordChar (c : Char) : Bool :=
  c.isAlphanum || c = '_' ||
    (0x3040 ≤ c.toNat && c.toNat ≤ 0x30FF) ||
    (0x4E00 ≤ c.toNat && c.toNat ≤ 0x9FFF)

/-- The boundary `\b` between two (optional) characters: word-ness differs; the edge
of the string counts as a non-word position. -/
def wordBoundary (a b : Option Char) : Bool :=
  (match a with | some c => isWordChar c | none => false) ≠
    (match b with | some c => isWordChar c | none => false)

/-- Does `nd` occur at the very beginning of `hay`? -/
def beginsWithL : List Char → List Char → Bool
  | [], _ => true
  | _ :: _, [] => false
  | a :: as, b :: bs => a = b && beginsWithL as bs

/-- Substring occurrence on character lists (Python's `in` for `str`). -/
def subListL (nd : List Char) : List Char → Bool
  | [] => beginsWithL nd []
  | c :: t => beginsWithL nd (c :: t) || subListL nd t

/-- Python's `needle in hay` for strings. -/
def strContains (hay needle : String) : Bool :=
  subListL needle.data hay.data

/-- Python's `str.upper()` restricted to ASCII case mapping (the
keywords and titles involved contain only ASCII letters and Japanese
characters, which `upper()` leaves unchanged). -/
def strUpper (s : String) : String :=
  String.mk (s.data.map Char.toUpper)

/-- Python's `' '.join(xs)`. -/
def joinSpace : List String → String
  | [] => ""
  | [x] => x
  | x :: y :: t => x ++ " " ++ joinSpace (y :: t)

/-- Remove the suffix `suf` from `s` if present (one application of
`re.sub(r'suf$', '', s)` for a literal `suf`). -/
def dropSuffixStr (s suf : String) : String :=
  if beginsWithL suf.data.reverse s.data.reverse then
    String.mk (s.data.take (s.data.length - suf.data.length))
  else s

/-- One repetition element of a linear regular expression: a character
class repeated between `lo` and `hi` times (`hi = none` meaning `*`'s
unbounded upper end), matched greedily. -/
structure REl where
  cls : Char → Bool
  lo : Nat
  hi : Option Nat

/-- Consume exactly `k` characters of class `cls`, threading the last
character read (for `\b` checks). -/
def matchChars (cls : Char → Bool) : Nat → Option Char → List Char →
    Option (Option Char × List Char)
  | 0, prev, cs => some (prev, cs)
  | _ + 1, _, [] => none
  | k + 1, _, c :: cs => if cls c then matchChars cls k (some c) cs else none

/-- Backtracking over the repetition count of one element: try `k`
repetitions first (greedy), then count down to `lo`.  `cont` continues
the match on the rest of the pattern. -/
def tryCounts (cls : Char → Bool) (lo : Nat) (prev : Option Char) (cs : List Char)
    (cont : Option Char → List Char → Option α) : Nat → Option α
  | 0 =>
    if lo = 0 then
      match matchChars cls 0 prev cs with
      | some (p, r) => cont p r
      | none => none
    else none
  | k + 1 =>
    if k + 1 < lo then none
    else
      match matchChars cls (k + 1) prev cs with
      | some (p, r) =>
        match cont p r with
        | some res => some res
        | none => tryCounts cls lo prev cs cont k
      | none => tryCounts cls lo prev cs cont k

/-- Match a sequence of elements at the current position with full
backtracking, greedy per element (Python `re` semantics for this linear
fragment). -/
def matchElems : List REl → Option Char → List Char →
    (Option Char → List Char → Option α) → Option α
  | [], prev, cs, cont => cont prev cs
  | e :: es, prev, cs, cont =>
    tryCounts e.cls e.lo prev cs (fun p r => matchElems es p r cont)
      (Nat.min (e.hi.getD cs.length) cs.length)

/-- A lookahead `(?=.*(?:alt₁|alt₂|...))`: some alternative matches at
some position of the remaining text (inputs are newline-free). -/
def lookHoldsAux (alts : List (List REl)) : List Char → Bool
  | [] => alts.any (fun alt => (matchElems alt none [] (fun _ r => some r)).isSome)
  | c :: cs =>
    alts.any (fun alt => (matchElems alt none (c :: cs) (fun _ r => some r)).isSome) ||
      lookHoldsAux alts cs

def lookOK : Option (List (List REl)) → List Char → Bool
  | none, _ => true
  | some alts, rest => lookHoldsAux alts rest

/-- A whole pattern of the plain (group-free) kind:
`\b? elems \b? (?=...)?`. -/
structure CPat where
  bStart : Bool
  elems : List REl
  bEnd : Bool
  look : Option (List (List REl))

/-- A registered pattern: either a plain pattern, or the calibre shape
`(?:alt₁|alt₂|...)(\d{lo,hi})\b` whose `findall` yields the captured
digit group. -/
inductive UPat where
  | plain : CPat → UPat
  | capD : List (List REl) → Nat → Nat → UPat

/-- Attempt a plain pattern at the current position.  On success returns
(matched text, last matched character, rest of the input). -/
def plainMatchAt (p : CPat) (prev : Option Char) (cs : List Char) :
    Option (String × Option Char × List Char) :=
  if p.bStart && !wordBoundary prev cs.head? then none
  else
    match matchElems p.elems prev cs
        (fun pl r =>
          if (!p.bEnd || wordBoundary pl r.head?) && lookOK p.look r then
            some (pl, r)
          else none) with
    | some (pl, r) => some (String.mk (cs.take (cs.length - r.length)), pl, r)
    | none => none

/-- Attempt a calibre pattern at the current position: the alternation
prefix (tried left to right), then the captured `\d{lo,hi}\b`.  On
success returns (captured digits, last matched character, rest). -/
def capMatchAt (alts : List (List REl)) (lo hi : Nat) (prev : Option Char)
    (cs : List Char) : Option (String × Option Char × List Char) :=
  alts.foldl
    (fun acc alt =>
      match acc with
      | some res => some res
      | none =>
        matchElems alt prev cs
          (fun p r =>
            tryCounts isDig lo p r
              (fun p2 r2 =>
                if wordBoundary p2 r2.head? then
                  some (String.mk (r.take (r.length - r2.length)), p2, r2)
                else none)
              (Nat.min hi r.length)))
    none

def uMatchAt : UPat → Option Char → List Char →
    Option (String × Option Char × List Char)
  | .plain p, prev, cs => plainMatchAt p prev cs
  | .capD alts lo hi, prev, cs => capMatchAt alts lo hi prev cs

/-- The scan loop of `re.findall`: try the pattern at each position left
to right; on a match, emit it and continue right after it (all the
registered patterns consume at least one character). -/
def findallFrom (p : UPat) : Nat → Option Char → List Char → List String
  | 0, _, _ => []
  | _ + 1, _, [] => []
  | fuel + 1, prev, c :: cs =>
    match uMatchAt p prev (c :: cs) with
    | some (out, pl, rest) => out :: findallFrom p fuel pl rest
    | none => findallFrom p fuel (some c) cs

/-- Python `re.findall(pattern, s, re.IGNORECASE)` for a registered pattern. -/
def findallTop (p : UPat) (s : String) : List String :=
  findallFrom p (s.data.length + 1) none s.data

/- Shorthand constructors for pattern elements. -/

def rel (cls : Char → Bool) (lo : Nat) (hi : Option Nat) : REl := ⟨cls, lo, hi⟩

/-- Element `\d{n}` -/
def dN (n : Nat) : REl := rel isDig n (some n)

/-- Element `\d{a,b}` -/
def dR (a b : Nat) : REl := rel isDig a (some b)

/-- Element `\d*` -/
def dStar : REl := rel isDig 0 none

/-- Element `[A-Z]{a,b}` under `re.IGNORECASE` -/
def uR (a b : Nat) : REl := rel isAlphaCI a (some b)

/-- Element `[A-Z]*` under `re.IGNORECASE` -/
def uStar : REl := rel isAlphaCI 0 none

/-- Element `[A-Z]?` under `re.IGNORECASE` -/
def uOpt : REl := rel isAlphaCI 0 (some 1)

/-- literal `-` -/
def dashE : REl := rel (fun c => c = '-') 1 (some 1)

/-- Element `-?` -/
def dashOpt : REl := rel (fun c => c = '-') 0 (some 1)

/-- literal `\.` -/
def dotE : REl := rel (fun c => c = '.') 1 (some 1)

/-- Element `\.?` -/
def dotOpt : REl := rel (fun c => c = '.') 0 (some 1)

/-- Element `\s*` -/
def wsStar : REl := rel isWs 0 none

/-- A literal string, character by character, case-insensitively. -/
def litS (s : String) : List REl :=
  s.data.map (fun c => rel (charCI c) 1 (some 1))

/-- Pattern `\b elems \b` with no lookahead. -/
def pat (es : List REl) : CPat := ⟨true, es, true, none⟩

/-- Pattern `\b elems \b (?=.*(?:alts))`. -/
def patL (es : List REl) (alts : List (List REl)) : CPat := ⟨true, es, true, some alts⟩

/-- Relation stating that `out` is a possible value of Python's `list(set(src))`: duplicate
free and with exactly the members of `src`.  CPython randomises the
hash seed per process, so no particular order is guaranteed. -/
def isSetDedup (src out : List String) : Prop :=
  out.Nodup ∧ (∀ s ∈ out, s ∈ src) ∧ (∀ s ∈ src, s ∈ out)

instance (src out : List String) : Decidable (isSetDedup src out) := by
  unfold isSetDedup; infer_instance

namespace ConfigScript

/-- The pattern table of `extract_model_numbers` in
`extract_ebay_seller_hub_config.py` (lines 126-144), in source order.
The calibre entry `(?:cal\.?\s*|Cal\.?\s*|CAL\.?\s*)(\d{3,4})\b` is the
only one containing a capture group and the only one whose text
contains `cal` (the discriminator used by the code). -/
def configPatterns : List UPat := [
  -- \b\d{3}\.\d{2}\.\d{2}\.\d{2}\.\d{2}\.\d{3}\b
  .plain (pat [dN 3, dotE, dN 2, dotE, dN 2, dotE, dN 2, dotE, dN 2, dotE, dN 3]),
  -- \b\d{4}\.\d{2}\.\d{2}\b
  .plain (pat [dN 4, dotE, dN 2, dotE, dN 2]),
  -- \b\d{3,4}\.\d{2}\b
  .plain (pat [dR 3 4, dotE, dN 2]),
  -- \b\d{3}\.\d{3}\b
  .plain (pat [dN 3, dotE, dN 3]),
  -- (?:cal\.?\s*|Cal\.?\s*|CAL\.?\s*)(\d{3,4})\b
  .capD [litS ("cal") ++ [dotOpt, wsStar],
         litS ("Cal") ++ [dotOpt, wsStar],
         litS ("CAL") ++ [dotOpt, wsStar]] 3 4,
  -- \bSO33M\d{3}\b
  .plain (pat (litS ("SO33M") ++ [dN 3])),
  -- \b[A-Z]{2,4}[0-9]{3,4}[A-Z]?\b
  .plain (pat [uR 2 4, dR 3 4, uOpt]),
  -- \b[0-9]{4}-[0-9]{4}\b
  .plain (pat [dN 4, dashE, dN 4]),
  -- \b[A-Z]{1,2}[0-9]{3,6}[A-Z]?\b
  .plain (pat [uR 1 2, dR 3 6, uOpt]),
  -- \b[0-9]{3,6}[A-Z]{2,4}\b
  .plain (pat [dR 3 6, uR 2 4]),
  -- \b\d{4}\b(?=.*(?:OMEGA|オメガ|De\s*Ville|デビル))
  .plain (patL [dN 4]
    [litS ("OMEGA"), litS ("オメガ"),
     litS ("De") ++ [wsStar] ++ litS ("Ville"), litS ("デビル")]),
  -- \b03-\d{8}\b
  .plain (pat (litS ("03") ++ [dashE, dN 8]))]

/-- What one pattern contributes to `found_models`: its `findall`
matches, with the calibre branch keeping the non-empty captured digit
groups and prefixing them with `Cal.` (lines 147-157). -/
def patModels (p : UPat) (t : String) : List String :=
  match p with
  | .capD alts lo hi =>
    ((findallTop (.capD alts lo hi) t).filter (fun m => m ≠ "")).map
      (fun m => "Cal." ++ m)
  | .plain q => findallTop (.plain q) t

/-- The full ordered (with duplicates) match list accumulated over the
pattern table. -/
def found_models (t : String) : List String :=
  (configPatterns.map (fun p => patModels p t)).flatten

/-- The suffix stripping of lines 123-124:
`re.sub(r'のサムネイル$', '', text)` then `re.sub(r'サムネイル$', '', ·)`. -/
def stripThumb (t : String) : String :=
  dropSuffixStr (dropSuffixStr t ("のサムネイル")) ("サムネイル")

/-- Function `extract_model_numbers` of `extract_ebay_seller_hub_config.py` up to
the final `list(set(...))`: empty input short-circuits to `[]`
(`if not text`), otherwise the stripped text is matched against every
pattern.  The function's actual return value is any list `out` with
`isSetDedup (extract_model_numbers_found text) out`. -/
def extract_model_numbers_found (text : String) : List String :=
  if text = "" then []
  else found_models (stripThumb text)

/-- Function `parse_price` (lines 168-184): empty/falsy input gives 0.0;
otherwise commas are removed and the first match of `[\d,]+\.?\d*` is
parsed as a decimal (on the comma-free text this is the first maximal
digit run, an optional dot, and a trailing digit run).  The `float`
conversion cannot fail on such a match, so the `except ValueError`
branch is dead; the function is total. -/

def natOfDigits (ds : List Char) : Nat :=
  ds.foldl (fun n c => 10 * n + (c.toNat - '0'.toNat)) 0

def ratOfParts (intPart fracPart : List Char) : ℚ :=
  (natOfDigits intPart : ℚ) + (natOfDigits fracPart : ℚ) / ((10 : ℚ) ^ fracPart.length)

/-- First match of `[\d,]+\.?\d*` on a comma-free character list,
returned as (integer digits, fractional digits). -/
def findNumber : List Char → Option (List Char × List Char)
  | [] => none
  | c :: cs =>
    if isDig c then
      let intPart := (c :: cs).takeWhile isDig
      let rest := (c :: cs).dropWhile isDig
      match rest with
      | '.' :: cs2 => some (intPart, cs2.takeWhile isDig)
      | _ => some (intPart, [])
    else findNumber cs

def parse_price (price_text : String) : ℚ :=
  if price_text = "" then 0
  else
    match findNumber (price_text.data.filter (fun c => c ≠ ',')) with
    | none => 0
    | some (ip, fp) => ratOfParts ip fp

/-- The configuration keys the scripts consume, each possibly absent
(`config.yaml` is free-form YAML; a structurally different file behaves
as all-absent).  `markup_rate` and `fixed_profit` live under
`profit_calculation`, `fixed_rate` under `exchange_rate`, and the three
filter fields under `ebay.price_filter`. -/
structure RawConfig where
  markup_rate : Option ℚ
  fixed_profit : Option ℚ
  fixed_rate : Option ℚ
  enable_price_filter : Option Bool
  min_price : Option ℚ
  max_price : Option ℚ
deriving DecidableEq

/-- The default dict returned by `load_config` when the file is missing
or any read inside the `try` fails (lines 36-44 and 72-80): markup 0.2,
fixed profit 3000, exchange rate 150.0, and no `ebay` key at all. -/
def default_config : RawConfig :=
  ⟨some (1/5), some 3000, some 150, none, none, none⟩

/-- Function `load_config` (lines 27-80).  With the file present it reads
`markup_rate`, `fixed_profit` and `fixed_rate` with bare `[]` indexing
inside the `try`; a single absent key raises `KeyError`, which the
`except` turns into the ENTIRE default configuration.  The
`price_filter` display uses `.get` chains and cannot raise. -/
def load_config (fileExists : Bool) (cfg : RawConfig) : RawConfig :=
  if fileExists = false then default_config
  else
    match cfg.markup_rate, cfg.fixed_profit, cfg.fixed_rate with
    | some _, some _, some _ => cfg
    | _, _, _ => default_config

/-- Accessor `config.get('ebay', {}).get('price_filter', {}).get('enable_price_filter', False)`. -/
def cfg_filter_enabled (c : RawConfig) : Bool := c.enable_price_filter.getD false

/-- Accessor `... .get('min_price', 0)`. -/
def cfg_min_filter (c : RawConfig) : ℚ := c.min_price.getD 0

/-- Accessor `... .get('max_price', 999999)`. -/
def cfg_max_filter (c : RawConfig) : ℚ := c.max_price.getD 999999

/-- Function `calculate_minimum_ebay_price` (lines 82-92); the two values
are the `markup_rate` and `fixed_profit` read from the config dict. -/
def calculate_minimum_ebay_price (mercari_price markup_rate fixed_profit : ℚ) : ℚ :=
  mercari_price * (1 + markup_rate) + fixed_profit

/-- One scraped table row of `extract_highest_price_product`, reduced to
the fields the evaluation inspects: the item name and the parsed USD
price (`usd_price = 0` for a row whose price cell is missing or parses
to zero — the code leaves the initial `0.0` in that case). -/
structure SoldRow where
  item_name : String
  usd_price : ℚ
deriving DecidableEq

/-- The selected product: name, USD price, and yen conversion
(`price_numeric = usd_price * exchange_rate`). -/
structure SoldProduct where
  item_name : String
  usd_price : ℚ
  price_numeric : ℚ
deriving DecidableEq

/-- The per-row admission test of the loop (lines 755-775): the price
must have been found and be positive; with the filter enabled a price
outside `[min, max]` is skipped (`continue`); and the yen price must
reach the computed minimum (`>=`).  The trailing
`any([item_name, item_url, price])` of line 774 is vacuous here: a row
can only be profitable when its price text was found, and that text is
then non-empty. -/
def keptRow (mercari markup fixed rate : ℚ) (fEn : Bool) (mnF mxF : ℚ)
    (r : SoldRow) : Bool :=
  decide (0 < r.usd_price ∧
    ¬(fEn = true ∧ (r.usd_price < mnF ∨ mxF < r.usd_price)) ∧
    calculate_minimum_ebay_price mercari markup fixed ≤ r.usd_price * rate)

/-- The `profitable_products` list accumulated by the loop. -/
def profitable_products (mercari markup fixed rate : ℚ) (fEn : Bool)
    (mnF mxF : ℚ) (rows : List SoldRow) : List SoldRow :=
  rows.filter (keptRow mercari markup fixed rate fEn mnF mxF)

/-- Python's `max(l, key=lambda x: x['usd_price'])`: the FIRST element
attaining the maximal price (`max` replaces its candidate only on a
strictly greater key). -/
def maxStep (b a : SoldRow) : SoldRow :=
  if b.usd_price < a.usd_price then a else b

def pyMaxUsd : List SoldRow → Option SoldRow
  | [] => none
  | x :: xs => some (xs.foldl maxStep x)

def mkProduct (rate : ℚ) (r : SoldRow) : SoldProduct :=
  ⟨r.item_name, r.usd_price, r.usd_price * rate⟩

/-- Function `extract_highest_price_product` (lines 648-821), with the browser
plumbing abstracted into the list of scraped rows.  After the loop:
no profitable product gives `None`; otherwise the USD-maximal one is
taken; with the filter enabled the (already filtered) list is filtered
again and its maximum taken, `None` if that list is empty, and a final
range check can also yield `None` (lines 787-817). -/
def extract_highest_price_product (mercari markup fixed rate : ℚ)
    (fEn : Bool) (mnF mxF : ℚ) (rows : List SoldRow) : Option SoldProduct :=
  let profitable := profitable_products mercari markup fixed rate fEn mnF mxF rows
  match pyMaxUsd profitable with
  | none => none
  | some best =>
    if fEn then
      let filtered := profitable.filter
        (fun p => decide (mnF ≤ p.usd_price ∧ p.usd_price ≤ mxF))
      match pyMaxUsd filtered with
      | none => none
      | some best2 =>
        if decide (best2.usd_price < mnF ∨ mxF < best2.usd_price) then none
        else some (mkProduct rate best2)
    else some (mkProduct rate best)

/-- Assignment `profit_amount = highest_product['price_numeric'] - mercari_price`
(line 954, and the `actual_profit` of line 770). -/
def profit_amount (p : SoldProduct) (mercari : ℚ) : ℚ :=
  p.price_numeric - mercari

end ConfigScript

namespace UniversalScript

/-- Shape `\bXX\d{2}[A-Z]{1,k}\b` of every BVLGARI pattern. -/
def u2 (s : String) (k : Nat) : UPat := .plain (pat (litS s ++ [dN 2, uR 1 k]))

/-- Shape `\bSBGX\d{3}\b` of every Grand Seiko pattern. -/
def g3 (s : String) : UPat := .plain (pat (litS s ++ [dN 3]))

/-- The common CASIO tail `[A-Z]*-?\d*[A-Z]*`. -/
def tailX : List REl := [uStar, dashOpt, dStar, uStar]

/-- Table `self.brand_patterns` of `WatchModelExtractor.__init__`
(`extract_watch_model_numbers_universal.py`, lines 28-163), brands and
patterns in source order.  Each comment gives the source regex. -/
def brand_patterns : List (String × List (String × UPat)) := [
  ("BVLGARI", [
    ("BB系 (ブルガリブルガリ)", u2 ("BB") 8),   -- \bBB\d{2}[A-Z]{1,8}\b
    ("ST系 (ソロテンポ)", u2 ("ST") 8),         -- \bST\d{2}[A-Z]{1,8}\b
    ("BZ系 (ビーゼロワン)", u2 ("BZ") 5),       -- \bBZ\d{2}[A-Z]{1,5}\b
    ("DG系 (ディアゴノ)", u2 ("DG") 5),         -- \bDG\d{2}[A-Z]{1,5}\b
    ("EG系 (エルゴン)", u2 ("EG") 5),           -- \bEG\d{2}[A-Z]{1,5}\b
    ("AL系 (アルミニウム)", u2 ("AL") 5),       -- \bAL\d{2}[A-Z]{1,5}\b
    ("RT系 (レッタンゴロ)", u2 ("RT") 5),       -- \bRT\d{2}[A-Z]{1,5}\b
    ("AA系 (アショーマ)", u2 ("AA") 5),         -- \bAA\d{2}[A-Z]{1,5}\b
    ("SQ系 (クアドラード)", u2 ("SQ") 5),       -- \bSQ\d{2}[A-Z]{1,5}\b
    ("SD系 (ディアゴノスクーバ)", u2 ("SD") 5)  -- \bSD\d{2}[A-Z]{1,5}\b
  ]),
  ("GRAND_SEIKO", [
    ("SBGX系 (クオーツ)", g3 ("SBGX")),
    ("SBGA系 (スプリングドライブ)", g3 ("SBGA")),
    ("SBGR系 (メカニカル)", g3 ("SBGR")),
    ("SBGT系 (GMT)", g3 ("SBGT")),
    ("SBGN系 (スポーツ)", g3 ("SBGN")),
    ("SBGC系 (クロノグラフ)", g3 ("SBGC")),
    ("SBGW系 (エレガンス)", g3 ("SBGW")),
    ("SBGJ系 (GMT)", g3 ("SBGJ")),
    ("SBGE系 (スプリングドライブGMT)", g3 ("SBGE")),
    ("SBGV系 (ビンテージ)", g3 ("SBGV")),
    ("SBGP系 (プレミア)", g3 ("SBGP")),
    ("SBGH系 (ヘリテージ)", g3 ("SBGH"))
  ]),
  ("OMEGA", [
    -- \b\d{3}\.\d{2}\.\d{2}\.\d{2}\.\d{2}\.\d{3}\b
    ("シーマスター長型番",
      .plain (pat [dN 3, dotE, dN 2, dotE, dN 2, dotE, dN 2, dotE, dN 2, dotE, dN 3])),
    -- \b\d{4}\.\d{2}\.\d{2}\b
    ("コンステレーション系", .plain (pat [dN 4, dotE, dN 2, dotE, dN 2])),
    -- \b\d{4}\.\d{2}\b
    ("スピードマスター系", .plain (pat [dN 4, dotE, dN 2])),
    -- \b\d{4}\.\d{2}\b
    ("シーマスター系", .plain (pat [dN 4, dotE, dN 2])),
    -- \b\d{3}\.\d{3}\b
    ("ヴィンテージ系", .plain (pat [dN 3, dotE, dN 3])),
    -- \b\d{4}\b(?=.*(?:De\s*Ville|デビル|OMEGA|オメガ))
    ("デビル系", .plain (patL [dN 4]
      [litS ("De") ++ [wsStar] ++ litS ("Ville"), litS ("デビル"),
       litS ("OMEGA"), litS ("オメガ")])),
    -- (?:Cal\.?\s*|キャリバー\s*)(\d{3,4})\b
    ("キャリバー系",
      .capD [litS ("Cal") ++ [dotOpt, wsStar], litS ("キャリバー") ++ [wsStar]] 3 4),
    -- \b\d{3}\b(?=.*(?:シーマスター|Seamaster))
    ("シーマスター番号", .plain (patL [dN 3] [litS ("シーマスター"), litS ("Seamaster")])),
    -- \bSO33M\d{3}\b
    ("スウォッチコラボ", .plain (pat (litS ("SO33M") ++ [dN 3]))),
    -- \b\d{3}\.\d{3}\b(?=.*(?:レディマティック|Lady\s*Matic))
    ("レディマティック系", .plain (patL [dN 3, dotE, dN 3]
      [litS ("レディマティック"), litS ("Lady") ++ [wsStar] ++ litS ("Matic")])),
    -- \b\d{3,4}\.\d{2,3}\b(?=.*(?:OMEGA|オメガ))
    ("現代型番", .plain (patL [dR 3 4, dotE, dR 2 3] [litS ("OMEGA"), litS ("オメガ")]))
  ]),
  ("CASIO", [
    -- \bDW-\d{4}[A-Z]*-?\d*[A-Z]*\b
    ("DW系 (G-SHOCK)", .plain (pat (litS ("DW") ++ [dashE, dN 4] ++ tailX))),
    -- \bGA-\d{3,4}[A-Z]*-?\d*[A-Z]*\b
    ("GA系 (G-SHOCK)", .plain (pat (litS ("GA") ++ [dashE, dR 3 4] ++ tailX))),
    -- \bGW-[A-Z]?\d{4}[A-Z]*-?\d*[A-Z]*\b
    ("GW系 (G-SHOCK電波ソーラー)", .plain (pat (litS ("GW") ++ [dashE, uOpt, dN 4] ++ tailX))),
    -- \bGM[A-Z]?-[A-Z]?\d{3,4}[A-Z]*-?\d*[A-Z]*\b
    ("GM系 (G-SHOCK Metal)", .plain (pat (litS ("GM") ++ [uOpt, dashE, uOpt, dR 3 4] ++ tailX))),
    -- \bGBD-\d{3,4}[A-Z]*-?\d*[A-Z]*\b
    ("GBD系 (G-SHOCK Bluetooth)", .plain (pat (litS ("GBD") ++ [dashE, dR 3 4] ++ tailX))),
    -- \bGAX-\d{3}[A-Z]*-?\d*[A-Z]*\b
    ("GAX系 (G-SHOCK)", .plain (pat (litS ("GAX") ++ [dashE, dN 3] ++ tailX))),
    -- \bGMA-[A-Z]?\d{3,4}[A-Z]*-?\d*[A-Z]*\b
    ("GMA系 (G-SHOCK)", .plain (pat (litS ("GMA") ++ [dashE, uOpt, dR 3 4] ++ tailX))),
    -- \bGST-[A-Z]?\d{3,4}[A-Z]*-?\d*[A-Z]*\b
    ("GST系 (G-SHOCK)", .plain (pat (litS ("GST") ++ [dashE, uOpt, dR 3 4] ++ tailX))),
    -- \bGS-\d{3,4}[A-Z]*\b
    ("GS系 (GIEZ)", .plain (pat (litS ("GS") ++ [dashE, dR 3 4, uStar]))),
    -- \bGT-\d{3}[A-Z]*-?\d*[A-Z]*\b
    ("GT系 (G-COOL)", .plain (pat (litS ("GT") ++ [dashE, dN 3] ++ tailX))),
    -- \bGD-\d{3}[A-Z]*-?\d*[A-Z]*\b
    ("GD系 (G-SHOCK)", .plain (pat (litS ("GD") ++ [dashE, dN 3] ++ tailX))),
    -- \bGL-\d{3}[A-Z]*-?\d*[A-Z]*\b
    ("GL系 (G-LIDE)", .plain (pat (litS ("GL") ++ [dashE, dN 3] ++ tailX))),
    -- \bG-\d{4}[A-Z]*-?\d*[A-Z]*\b
    ("G-他系 (G-SHOCK その他)", .plain (pat (litS ("G") ++ [dashE, dN 4] ++ tailX))),
    -- \bGBA-\d{3}[A-Z]*-?\d*[A-Z]*\b
    ("GBA系 (G-SHOCK Bluetooth)", .plain (pat (litS ("GBA") ++ [dashE, dN 3] ++ tailX))),
    -- \bGWR-[A-Z]?\d{4}[A-Z]*-?\d*[A-Z]*\b
    ("GWR系 (グラビティマスター)", .plain (pat (litS ("GWR") ++ [dashE, uOpt, dN 4] ++ tailX))),
    -- \bBA-\d{3}[A-Z]*-?\d*[A-Z]*\b
    ("BA系 (Baby-G)", .plain (pat (litS ("BA") ++ [dashE, dN 3] ++ tailX))),
    -- \bBGA-\d{3,4}[A-Z]*-?\d*[A-Z]*\b
    ("BGA系 (Baby-G)", .plain (pat (litS ("BGA") ++ [dashE, dR 3 4] ++ tailX))),
    -- \bBGD-\d{3}[A-Z]*-?\d*[A-Z]*\b
    ("BGD系 (Baby-G)", .plain (pat (litS ("BGD") ++ [dashE, dN 3] ++ tailX))),
    -- \bBGT-\d{4}[A-Z]*-?\d*[A-Z]*\b
    ("BGT系 (Baby-G)", .plain (pat (litS ("BGT") ++ [dashE, dN 4] ++ tailX))),
    -- \bMSG-\d{3,4}[A-Z]*-?\d*[A-Z]*\b
    ("MSG系 (Baby-G)", .plain (pat (litS ("MSG") ++ [dashE, dR 3 4] ++ tailX))),
    -- \bA\d{3}[A-Z]{2,4}-?\d*[A-Z]*\b
    ("A系 (スタンダード)", .plain (pat (litS ("A") ++ [dN 3, uR 2 4, dashOpt, dStar, uStar]))),
    -- \bF-\d{2,3}[A-Z]{2,4}-?\d*[A-Z]*\b
    ("F系 (スタンダード)", .plain (pat (litS ("F") ++ [dashE, dR 2 3, uR 2 4, dashOpt, dStar, uStar]))),
    -- \bW-\d{3,4}[A-Z]*-?\d*[A-Z]*\b
    ("W系 (スタンダード)", .plain (pat (litS ("W") ++ [dashE, dR 3 4] ++ tailX))),
    -- \bMQ-\d{2,3}[A-Z]*-?\d*[A-Z]*\b
    ("MQ系 (アナログ)", .plain (pat (litS ("MQ") ++ [dashE, dR 2 3] ++ tailX))),
    -- \bMW-\d{3}[A-Z]*-?\d*[A-Z]*\b
    ("MW系 (アナログ)", .plain (pat (litS ("MW") ++ [dashE, dN 3] ++ tailX))),
    -- \bMTP-[A-Z]?\d{3,4}[A-Z]*-?\d*[A-Z]*\b
    ("MTP系 (アナログ)", .plain (pat (litS ("MTP") ++ [dashE, uOpt, dR 3 4] ++ tailX))),
    -- \bMRW-\d{3}[A-Z]*-?\d*[A-Z]*\b
    ("MRW系 (アナログ)", .plain (pat (litS ("MRW") ++ [dashE, dN 3] ++ tailX))),
    -- \bEQB-\d{3}[A-Z]*-?\d*[A-Z]*\b
    ("EQB系 (EDIFICE Bluetooth)", .plain (pat (litS ("EQB") ++ [dashE, dN 3] ++ tailX))),
    -- \bEQW-[A-Z]?\d{3,4}[A-Z]*-?\d*[A-Z]*\b
    ("EQW系 (EDIFICE 電波)", .plain (pat (litS ("EQW") ++ [dashE, uOpt, dR 3 4] ++ tailX))),
    -- \bECB-\d{2,3}[A-Z]*-?\d*[A-Z]*\b
    ("ECB系 (EDIFICE Bluetooth)", .plain (pat (litS ("ECB") ++ [dashE, dR 2 3] ++ tailX))),
    -- \bLIW-[A-Z]?\d{3,4}[A-Z]*-?\d*[A-Z]*\b
    ("LIW系 (LINEAGE)", .plain (pat (litS ("LIW") ++ [dashE, uOpt, dR 3 4] ++ tailX))),
    -- \bLWQ-\d{2,3}[A-Z]*-?\d*[A-Z]*\b
    ("LWQ系 (WAVE CEPTOR)", .plain (pat (litS ("LWQ") ++ [dashE, dR 2 3] ++ tailX))),
    -- \bLWA-[A-Z]?\d{3,4}[A-Z]*-?\d*[A-Z]*\b
    ("LWA系 (WAVE CEPTOR)", .plain (pat (litS ("LWA") ++ [dashE, uOpt, dR 3 4] ++ tailX))),
    -- \bWVA-[A-Z]?\d{3,4}[A-Z]*-?\d*[A-Z]*\b
    ("WVA系 (WAVE CEPTOR)", .plain (pat (litS ("WVA") ++ [dashE, uOpt, dR 3 4] ++ tailX))),
    -- \bWV-?\d{2,3}[A-Z]*-?\d*[A-Z]*\b
    ("WV系 (WAVE CEPTOR)", .plain (pat (litS ("WV") ++ [dashOpt, dR 2 3] ++ tailX))),
    -- \bPRL-\d{2}[A-Z]{2,4}-?\d*[A-Z]*\b
    ("PRL系 (PRO TREK)", .plain (pat (litS ("PRL") ++ [dashE, dN 2, uR 2 4, dashOpt, dStar, uStar]))),
    -- \bIRW-[A-Z]?\d{3,4}[A-Z]*-?\d*[A-Z]*\b
    ("IRW系 (i-RANGE)", .plain (pat (litS ("IRW") ++ [dashE, uOpt, dR 3 4] ++ tailX))),
    -- \bCA-\d{3}[A-Z]{2,4}-?\d*[A-Z]*\b
    ("CA系 (データバンク)", .plain (pat (litS ("CA") ++ [dashE, dN 3, uR 2 4, dashOpt, dStar, uStar]))),
    -- \bNF-\d{2}[A-Z]*\b
    ("NF系 (その他)", .plain (pat (litS ("NF") ++ [dashE, dN 2, uStar]))),
    -- \bH\d{3}\b
    ("H系 (ビンテージ)", .plain (pat (litS ("H") ++ [dN 3]))),
    -- \bHDA-\d{3}[A-Z]*\b
    ("HDA系 (アナログ)", .plain (pat (litS ("HDA") ++ [dashE, dN 3, uStar]))),
    -- \bS\d{3}\b
    ("S系 (ビンテージ)", .plain (pat (litS ("S") ++ [dN 3]))),
    -- \bAW-\d{2,4}[A-Z]*-?\d*[A-Z]*\b
    ("AW系 (アナデジ)", .plain (pat (litS ("AW") ++ [dashE, dR 2 4] ++ tailX))),
    -- \bAL-\d{3}[A-Z]*\b
    ("AL系 (ソーラー)", .plain (pat (litS ("AL") ++ [dashE, dN 3, uStar]))),
    -- \bFS-\d{2}[A-Z]*\b
    ("FS系 (フィルムウォッチ)", .plain (pat (litS ("FS") ++ [dashE, dN 2, uStar]))),
    -- \bBAX-\d{3}[A-Z]*-?\d*[A-Z]*\b
    ("BAX系 (Baby-G)", .plain (pat (litS ("BAX") ++ [dashE, dN 3] ++ tailX))),
    -- \b\d{2}QS-\d{2}[A-Z]*\b
    ("QS系 (ビンテージ)", .plain (pat ([dN 2] ++ litS ("QS") ++ [dashE, dN 2, uStar]))),
    -- \bAQ-\d{3}[A-Z]*-?\d*[A-Z]*\b
    ("AQ系 (データバンク)", .plain (pat (litS ("AQ") ++ [dashE, dN 3] ++ tailX))),
    -- \bABL-\d{3}[A-Z]{2,4}-?\d*[A-Z]*\b
    ("ABL系 (Bluetooth)", .plain (pat (litS ("ABL") ++ [dashE, dN 3, uR 2 4, dashOpt, dStar, uStar]))),
    -- \b\d{2}CS-\d{2}[A-Z]*\b
    ("CS系 (ビンテージ)", .plain (pat ([dN 2] ++ litS ("CS") ++ [dashE, dN 2, uStar]))),
    -- \bLD-\d{3}[A-Z]*\b
    ("LD系 (ダイバー)", .plain (pat (litS ("LD") ++ [dashE, dN 3, uStar]))),
    -- \bMD-\d{3}[A-Z]*\b
    ("MD系 (イルミネーター)", .plain (pat (litS ("MD") ++ [dashE, dN 3, uStar]))),
    -- \bMV-\d{3}[A-Z]*\b
    ("MV系 (その他)", .plain (pat (litS ("MV") ++ [dashE, dN 3, uStar]))),
    -- \bSGW-\d{3}[A-Z]*\b
    ("SGW系 (アウトドア)", .plain (pat (litS ("SGW") ++ [dashE, dN 3, uStar]))),
    -- \bUSB-\d{2}[A-Z]*\b
    ("USB系 (クアスター)", .plain (pat (litS ("USB") ++ [dashE, dN 2, uStar]))),
    -- \bCRW-\d{3}[A-Z]*-?\d*[A-Z]*\b
    ("CRW系 (リングウォッチ)", .plain (pat (litS ("CRW") ++ [dashE, dN 3] ++ tailX))),
    -- \bB\d{3}\b
    ("B系 (その他)", .plain (pat (litS ("B") ++ [dN 3]))),
    -- \bGMN-\d{2,3}[A-Z]*\b
    ("GMN系 (G-SHOCK mini)", .plain (pat (litS ("GMN") ++ [dashE, dR 2 3, uStar]))),
    -- \b\d{4}\b(?=.*(?:CASIO|カシオ))
    ("数字系 (モジュール番号)", .plain (patL [dN 4] [litS ("CASIO"), litS ("カシオ")]))
  ])]

/-- Dictionary lookup `self.brand_patterns[brand]`, with
`brand in self.brand_patterns` as `isSome` of the result. -/
def lookupBrand (b : String) : Option (List (String × UPat)) :=
  (brand_patterns.find? (fun e => e.1 == b)).map (fun e => e.2)

/-- The keyword tables of `detect_brand` (lines 173-176). -/
def bvlgari_keywords : List String := ["BVLGARI", "ブルガリ", "BULGARI"]

def seiko_keywords : List String := ["GRAND SEIKO", "グランドセイコー", "SBGX", "SBGA", "SBGR"]

def casio_keywords : List String := ["CASIO", "カシオ", "G-SHOCK", "BABY-G", "EDIFICE"]

def omega_keywords : List String :=
  ["OMEGA", "オメガ", "SEAMASTER", "SPEEDMASTER", "CONSTELLATION", "DE VILLE"]

/-- Count `sum(1 for keyword in keywords if keyword in sample_text)`. -/
def keywordCount (ks : List String) (sample : String) : Nat :=
  (ks.filter (fun k => strContains sample k)).length

/-- Python's `max(counts, key=counts.get)` over an insertion-ordered
dict, paired with its count: the FIRST key attaining the maximum
(`max` replaces its candidate only on a strictly greater value). -/
def firstMaxPair : List (String × Nat) → String × Nat
  | [] => ("", 0)
  | x :: xs => xs.foldl (fun b a => if b.2 < a.2 then a else b) x

/-- Function `detect_brand` (lines 165-194): the titles of the first 10 CSV rows
are joined with spaces and upper-cased; each brand's keywords present as
substrings are counted; the first brand (in the order BVLGARI,
GRAND_SEIKO, CASIO, OMEGA) attaining the maximal count is returned when
that count is positive, and `'ALL'` otherwise. -/
def detect_brand (titles : List String) : String :=
  let sample := strUpper (joinSpace (titles.take 10))
  let counts := [("BVLGARI", keywordCount bvlgari_keywords sample),
                 ("GRAND_SEIKO", keywordCount seiko_keywords sample),
                 ("CASIO", keywordCount casio_keywords sample),
                 ("OMEGA", keywordCount omega_keywords sample)]
  let maxBrand := firstMaxPair counts
  if 0 < maxBrand.2 then maxBrand.1 else "ALL"

/-- The brand list used when `target_brands` is `None`
(`extract_model_numbers`, lines 200-206). -/
def auto_target_brands (titles : List String) : List String :=
  if detect_brand titles = "ALL" then ["BVLGARI", "GRAND_SEIKO", "CASIO", "OMEGA"]
  else [detect_brand titles]

/-- One CSV row as the extractor reads it: `title`, `price`,
`product_url`. -/
structure URow where
  title : String
  price : String
  url : String
deriving DecidableEq

/-- One entry of `extracted_models` (lines 241-248). -/
structure UModelInfo where
  brand : String
  pattern_type : String
  model_number : String
  title : String
  price : String
  url : String
deriving DecidableEq

/-- The extraction loop of `extract_model_numbers` (lines 222-253):
for each requested brand, a brand NOT registered in `brand_patterns` is
skipped with a printed warning (`continue`) — no exception is raised —
and a registered brand contributes, for each row and each of its
patterns in registry order, every `findall` match upper-cased. -/
def extract_model_numbers (target_brands : List String) (rows : List URow) :
    List UModelInfo :=
  target_brands.foldl
    (fun acc brand =>
      match lookupBrand brand with
      | none => acc
      | some pats =>
        acc ++ rows.foldl
          (fun acc2 row =>
            acc2 ++ pats.foldl
              (fun acc3 pr =>
                acc3 ++ (findallTop pr.2 row.title).map
                  (fun m =>
                    { brand := brand, pattern_type := pr.1,
                      model_number := strUpper m, title := row.title,
                      price := row.price, url := row.url }))
              [])
          [])
    []

end UniversalScript

/-! ### Supporting lemmas -/

namespace ConfigScript

lemma keptRow_pos (m mk f rate : ℚ) (fEn : Bool) (mnF mxF : ℚ) (r : SoldRow)
    (h : keptRow m mk f rate fEn mnF mxF r = true) : 0 < r.usd_price := by
  rw [keptRow, decide_eq_true_eq] at h
  exact h.1

lemma keptRow_range (m mk f rate mnF mxF : ℚ) (r : SoldRow)
    (h : keptRow m mk f rate true mnF mxF r = true) :
    mnF ≤ r.usd_price ∧ r.usd_price ≤ mxF := by
  rw [keptRow, decide_eq_true_eq] at h
  obtain ⟨-, h2, -⟩ := h
  constructor
  · by_contra hlt
    exact h2 ⟨rfl, Or.inl (lt_of_not_le hlt)⟩
  · by_contra hlt
    exact h2 ⟨rfl, Or.inr (lt_of_not_le hlt)⟩

lemma foldl_maxStep_mem (xs : List SoldRow) (x : SoldRow) :
    xs.foldl maxStep x ∈ x :: xs := by
  induction xs generalizing x with
  | nil => simp
  | cons y ys ih =>
    rw [List.foldl_cons]
    rcases List.mem_cons.mp (ih (maxStep x y)) with h1 | h2
    · rw [h1]
      unfold maxStep
      split
      · exact List.mem_cons_of_mem _ (List.mem_cons_self _ _)
      · exact List.mem_cons_self _ _
    · exact List.mem_cons_of_mem _ (List.mem_cons_of_mem _ h2)

lemma maxStep_le_left (x y : SoldRow) : x.usd_price ≤ (maxStep x y).usd_price := by
  unfold maxStep
  split
  · exact le_of_lt (by assumption)
  · exact le_refl _

lemma maxStep_le_right (x y : SoldRow) : y.usd_price ≤ (maxStep x y).usd_price := by
  unfold maxStep
  split
  · exact le_refl _
  · exact le_of_not_lt (by assumption)

lemma foldl_maxStep_le (xs : List SoldRow) (x : SoldRow) :
    ∀ y ∈ x :: xs, y.usd_price ≤ (xs.foldl maxStep x).usd_price := by
  induction xs generalizing x with
  | nil =>
    intro y hy
    rw [List.mem_singleton] at hy
    subst hy
    exact le_refl _
  | cons z zs ih =>
    intro y hy
    rw [List.foldl_cons]
    have hhead := ih (maxStep x z) (maxStep x z) (List.mem_cons_self _ _)
    rcases List.mem_cons.mp hy with rfl | hy2
    · exact (maxStep_le_left y z).trans hhead
    rcases List.mem_cons.mp hy2 with rfl | hy3
    · exact (maxStep_le_right x y).trans hhead
    · exact ih (maxStep x z) y (List.mem_cons_of_mem _ hy3)

/-- The `foldl` of `maxStep` is the FIRST maximum: the input splits as
`l₁ ++ result :: l₂` with everything in `l₁` strictly smaller. -/
lemma foldl_maxStep_split (xs : List SoldRow) (x : SoldRow) :
    ∃ l₁ l₂, x :: xs = l₁ ++ (xs.foldl maxStep x) :: l₂ ∧
      ∀ y ∈ l₁, y.usd_price < (xs.foldl maxStep x).usd_price := by
  induction xs generalizing x with
  | nil => exact ⟨[], [], rfl, by simp⟩
  | cons z zs ih =>
    obtain ⟨l₁, l₂, hsplit, hlt⟩ := ih (maxStep x z)
    by_cases hxz : x.usd_price < z.usd_price
    · have hstep : maxStep x z = z := by simp [maxStep, hxz]
      rw [List.foldl_cons]
      refine ⟨x :: l₁, l₂, ?_, ?_⟩
      · rw [List.cons_append]
        congr 1
        rw [← hsplit, hstep]
      · have hz : z.usd_price ≤ (zs.foldl maxStep (maxStep x z)).usd_price := by
          rw [hstep]
          exact foldl_maxStep_le zs z z (List.mem_cons_self _ _)
        intro y hy
        rcases List.mem_cons.mp hy with rfl | hy2
        · exact lt_of_lt_of_le hxz hz
        · exact hlt y hy2
    · have hstep : maxStep x z = x := by simp [maxStep, hxz]
      rw [hstep] at hsplit hlt
      rw [List.foldl_cons, hstep]
      cases l₁ with
      | nil =>
        rw [List.nil_append] at hsplit
        injection hsplit with hx hl2
        refine ⟨[], z :: zs, ?_, by simp⟩
        rw [List.nil_append, ← hx]
      | cons a l₁' =>
        rw [List.cons_append] at hsplit
        injection hsplit with hxa hzs
        refine ⟨x :: z :: l₁', l₂, ?_, ?_⟩
        · rw [List.cons_append, List.cons_append, ← hzs]
        · intro y hy
          rcases List.mem_cons.mp hy with rfl | hy2
          · exact hlt y (hxa ▸ List.mem_cons_self a l₁')
          rcases List.mem_cons.mp hy2 with rfl | hy3
          · calc y.usd_price ≤ x.usd_price := le_of_not_lt hxz
              _ < _ := hlt x (hxa ▸ List.mem_cons_self a l₁')
          · exact hlt y (List.mem_cons_of_mem _ hy3)

lemma pyMaxUsd_eq_none_iff (l : List SoldRow) : pyMaxUsd l = none ↔ l = [] := by
  cases l <;> simp [pyMaxUsd]

lemma pyMaxUsd_some_mem (l : List SoldRow) (r : SoldRow) (h : pyMaxUsd l = some r) :
    r ∈ l := by
  cases l with
  | nil => simp [pyMaxUsd] at h
  | cons x xs =>
    rw [pyMaxUsd, Option.some.injEq] at h
    rw [← h]
    exact foldl_maxStep_mem xs x

/-- The whole of `extract_highest_price_product` after the loop is the
first USD maximum of `profitable_products` (the re-filter of the
enabled-filter branch removes nothing, since every kept row already
passed the range check, and the final range check then never fires). -/
lemma eval_eq_pyMax (m mk f rate : ℚ) (fEn : Bool) (mnF mxF : ℚ)
    (rows : List SoldRow) :
    extract_highest_price_product m mk f rate fEn mnF mxF rows =
      (pyMaxUsd (profitable_products m mk f rate fEn mnF mxF rows)).map (mkProduct rate) := by
  cases hP : pyMaxUsd (profitable_products m mk f rate fEn mnF mxF rows) with
  | none => simp [extract_highest_price_product, hP]
  | some best =>
    cases fEn with
    | false => simp [extract_highest_price_product, hP]
    | true =>
      have hfil : (profitable_products m mk f rate true mnF mxF rows).filter
          (fun p => decide (mnF ≤ p.usd_price ∧ p.usd_price ≤ mxF)) =
          profitable_products m mk f rate true mnF mxF rows := by
        apply List.filter_eq_self.mpr
        intro a ha
        have hk : keptRow m mk f rate true mnF mxF a = true :=
          (List.mem_filter.mp ha).2
        exact decide_eq_true (keptRow_range m mk f rate mnF mxF a hk)
      have hmem := pyMaxUsd_some_mem _ _ hP
      have hk : keptRow m mk f rate true mnF mxF best = true :=
        (List.mem_filter.mp hmem).2
      have hrange := keptRow_range m mk f rate mnF mxF best hk
      have hnot : ¬(best.usd_price < mnF ∨ mxF < best.usd_price) := by
        rintro (h1 | h2)
        · exact absurd hrange.1 (not_le.mpr h1)
        · exact absurd hrange.2 (not_le.mpr h2)
      simp only [extract_highest_price_product, hfil, hP]
      simp [hnot]

lemma eval_some_elim (m mk f rate : ℚ) (fEn : Bool) (mnF mxF : ℚ)
    (rows : List SoldRow) (pr : SoldProduct)
    (h : extract_highest_price_product m mk f rate fEn mnF mxF rows = some pr) :
    ∃ r, pyMaxUsd (profitable_products m mk f rate fEn mnF mxF rows) = some r ∧
      pr = mkProduct rate r := by
  rw [eval_eq_pyMax] at h
  cases hP : pyMaxUsd (profitable_products m mk f rate fEn mnF mxF rows) with
  | none => rw [hP] at h; simp at h
  | some r =>
    rw [hP] at h
    simp only [Option.map_some', Option.some.injEq] at h
    exact ⟨r, rfl, h.symm⟩

/-- Pre-filtering the input rows by any property implied by the kept
test does not change the evaluation. -/
lemma eval_prefilter (m mk f rate : ℚ) (fEn : Bool) (mnF mxF : ℚ)
    (rows : List SoldRow) (q : SoldRow → Bool)
    (hq : ∀ r, keptRow m mk f rate fEn mnF mxF r = true → q r = true) :
    extract_highest_price_product m mk f rate fEn mnF mxF rows =
      extract_highest_price_product m mk f rate fEn mnF mxF (rows.filter q) := by
  have hpp : profitable_products m mk f rate fEn mnF mxF (rows.filter q) =
      profitable_products m mk f rate fEn mnF mxF rows := by
    unfold profitable_products
    rw [List.filter_filter]
    apply List.filter_congr
    intro a _
    cases hk : keptRow m mk f rate fEn mnF mxF a with
    | false => simp
    | true => simp [hq a hk]
  rw [eval_eq_pyMax, eval_eq_pyMax, hpp]

end ConfigScript

/-! ### Claims -/

/-- C2: when the price filter is enabled, every candidate whose USD
price lies outside the inclusive `[min, max]` range is excluded before
the best candidate is selected (pre-filtering the rows by the range is
observationally identical, and a returned product is always in range);
in particular with prices `[50, 500, 5000]`, filter `[100, 1000]` and a
config under which only 5000 would clear the threshold
(source 100000, markup 0.2, fixed 3000, rate 150, minimum 123000),
the evaluation returns `none`. -/
theorem C2_price_filter_before_selection :
    (∀ (m mk f rate mnF mxF : ℚ) (rows : List ConfigScript.SoldRow)
        (pr : ConfigScript.SoldProduct),
        ConfigScript.extract_highest_price_product m mk f rate true mnF mxF rows = some pr →
        mnF ≤ pr.usd_price ∧ pr.usd_price ≤ mxF) ∧
    (∀ (m mk f rate mnF mxF : ℚ) (rows : List ConfigScript.SoldRow),
        ConfigScript.extract_highest_price_product m mk f rate true mnF mxF rows =
          ConfigScript.extract_highest_price_product m mk f rate true mnF mxF
            (rows.filter (fun r => decide (mnF ≤ r.usd_price ∧ r.usd_price ≤ mxF)))) ∧
    ConfigScript.extract_highest_price_product 100000 (1/5) 3000 150 true 100 1000
      [⟨"a", 50⟩, ⟨"b", 500⟩, ⟨"c", 5000⟩] = none := by
  refine ⟨?_, ?_, by
    norm_num [ConfigScript.extract_highest_price_product,
      ConfigScript.profitable_products, ConfigScript.keptRow,
      ConfigScript.calculate_minimum_ebay_price, ConfigScript.pyMaxUsd,
      ConfigScript.maxStep, ConfigScript.mkProduct, List.filter_cons]⟩
  · intro m mk f rate mnF mxF rows pr h
    obtain ⟨r, hmax, hpr⟩ := ConfigScript.eval_some_elim _ _ _ _ _ _ _ _ _ h
    have hmem := ConfigScript.pyMaxUsd_some_mem _ _ hmax
    have hk := (List.mem_filter.mp hmem).2
    have hrange := ConfigScript.keptRow_range m mk f rate mnF mxF r hk
    rw [hpr]
    exact hrange
  · intro m mk f rate mnF mxF rows
    apply ConfigScript.eval_prefilter
    intro r hk
    exact decide_eq_true (ConfigScript.keptRow_range m mk f rate mnF mxF r hk)

/-- C2 witness: a concrete enabled-filter run returning a product, whose
price the theorem places inside the range. -/
theorem C2_price_filter_before_selection_witness :
    (100 : ℚ) ≤ (ConfigScript.SoldProduct.mk ("a") 500 500).usd_price ∧
      (ConfigScript.SoldProduct.mk ("a") 500 500).usd_price ≤ 1000 :=
  C2_price_filter_before_selection.1 0 0 0 1 100 1000 [⟨"a", 500⟩] ⟨"a", 500, 500⟩
    (by norm_num [ConfigScript.extract_highest_price_product,
      ConfigScript.profitable_products, ConfigScript.keptRow,
      ConfigScript.calculate_minimum_ebay_price, ConfigScript.pyMaxUsd,
      ConfigScript.maxStep, ConfigScript.mkProduct, List.filter_cons])

/-- C3: the minimum required resale price is
`sourcePrice * (1 + markupRate) + fixedProfit` (15000 on the spec's
example), and the profitability comparison is inclusive: a candidate
whose converted price equals the minimum exactly is selected, while one
strictly below it is not. -/
theorem C3_minimum_price_threshold :
    (∀ m mk f : ℚ, ConfigScript.calculate_minimum_ebay_price m mk f = m * (1 + mk) + f) ∧
    ConfigScript.calculate_minimum_ebay_price 10000 (1/5) 3000 = 15000 ∧
    (∀ (m mk f rate p : ℚ) (name : String), 0 < p →
        p * rate = ConfigScript.calculate_minimum_ebay_price m mk f →
        ConfigScript.extract_highest_price_product m mk f rate false 0 0 [⟨name, p⟩] =
          some ⟨name, p, p * rate⟩) ∧
    (∀ (m mk f rate p : ℚ) (name : String),
        p * rate < ConfigScript.calculate_minimum_ebay_price m mk f →
        ConfigScript.extract_highest_price_product m mk f rate false 0 0 [⟨name, p⟩] =
          none) := by
  refine ⟨fun m mk f => rfl, by norm_num [ConfigScript.calculate_minimum_ebay_price], ?_, ?_⟩
  · intro m mk f rate p name hp heq
    have hk : ConfigScript.keptRow m mk f rate false 0 0 ⟨name, p⟩ = true := by
      rw [ConfigScript.keptRow, decide_eq_true_eq]
      refine ⟨hp, ?_, le_of_eq heq.symm⟩
      rintro ⟨hcontr, -⟩
      exact Bool.false_ne_true hcontr
    rw [ConfigScript.eval_eq_pyMax]
    simp [ConfigScript.profitable_products, List.filter_cons, hk, ConfigScript.pyMaxUsd,
      ConfigScript.mkProduct]
  · intro m mk f rate p name hlt
    have hk : ConfigScript.keptRow m mk f rate false 0 0 ⟨name, p⟩ = false := by
      rw [ConfigScript.keptRow, decide_eq_false_iff_not]
      rintro ⟨-, -, hle⟩
      exact absurd hle (not_le.mpr hlt)
    rw [ConfigScript.eval_eq_pyMax]
    simp [ConfigScript.profitable_products, List.filter_cons, hk, ConfigScript.pyMaxUsd]

/-- C3 witness: source 10000, markup 0.2, fixed 3000, rate 150, and a
candidate of exactly 100 USD = 15000 JPY, which is selected. -/
theorem C3_minimum_price_threshold_witness :
    ConfigScript.extract_highest_price_product 10000 (1/5) 3000 150 false 0 0 [⟨"x", 100⟩] =
      some ⟨"x", 100, 15000⟩ := by
  have h := C3_minimum_price_threshold.2.2.1 10000 (1/5) 3000 150 100 ("x") (by norm_num)
    (by norm_num [ConfigScript.calculate_minimum_ebay_price])
  norm_num at h
  exact h

/-- C4: among the candidates passing the filter and the profitability
test (`profitable_products`), evaluation selects the one with maximal
USD price, ties broken in favour of the first-encountered one; its
reported profit equals converted price minus source price; and the
result is `none` exactly when no candidate qualifies. -/
theorem C4_best_candidate_selection (m mk f rate : ℚ) (fEn : Bool) (mnF mxF : ℚ)
    (rows : List ConfigScript.SoldRow) :
    (ConfigScript.extract_highest_price_product m mk f rate fEn mnF mxF rows = none ↔
      ConfigScript.profitable_products m mk f rate fEn mnF mxF rows = []) ∧
    ∀ pr, ConfigScript.extract_highest_price_product m mk f rate fEn mnF mxF rows = some pr →
      ∃ r l₁ l₂,
        ConfigScript.profitable_products m mk f rate fEn mnF mxF rows = l₁ ++ r :: l₂ ∧
        pr = ConfigScript.mkProduct rate r ∧
        (∀ y ∈ l₁, y.usd_price < r.usd_price) ∧
        (∀ y ∈ ConfigScript.profitable_products m mk f rate fEn mnF mxF rows,
          y.usd_price ≤ r.usd_price) ∧
        ConfigScript.profit_amount pr m = r.usd_price * rate - m := by
  constructor
  · rw [ConfigScript.eval_eq_pyMax]
    cases hP : ConfigScript.pyMaxUsd
        (ConfigScript.profitable_products m mk f rate fEn mnF mxF rows) with
    | none =>
      simpa using (ConfigScript.pyMaxUsd_eq_none_iff _).mp hP
    | some r =>
      simp only [Option.map_some']
      constructor
      · intro hcontr
        exact absurd hcontr (by simp)
      · intro hnil
        rw [hnil] at hP
        simp [ConfigScript.pyMaxUsd] at hP
  · intro pr h
    obtain ⟨r, hmax, hpr⟩ := ConfigScript.eval_some_elim _ _ _ _ _ _ _ _ _ h
    cases hl : ConfigScript.profitable_products m mk f rate fEn mnF mxF rows with
    | nil =>
      rw [hl] at hmax
      simp [ConfigScript.pyMaxUsd] at hmax
    | cons x xs =>
      rw [hl, ConfigScript.pyMaxUsd, Option.some.injEq] at hmax
      obtain ⟨l₁, l₂, hsplit, hlt⟩ := ConfigScript.foldl_maxStep_split xs x
      rw [hmax] at hsplit hlt
      refine ⟨r, l₁, l₂, hsplit, hpr, hlt, ?_, ?_⟩
      · intro y hy
        have := ConfigScript.foldl_maxStep_le xs x y hy
        rw [hmax] at this
        exact this
      · rw [hpr]
        rfl

/-- C4 witness: rows `a:5, b:7, c:7` with no filter and minimum 0; the
theorem yields the split certifying that the FIRST 7-priced row wins. -/
theorem C4_best_candidate_selection_witness :
    ∃ (r : ConfigScript.SoldRow) (l₁ l₂ : List ConfigScript.SoldRow),
      ConfigScript.profitable_products 0 0 0 1 false 0 0
          [⟨"a", 5⟩, ⟨"b", 7⟩, ⟨"c", 7⟩] = l₁ ++ r :: l₂ ∧
      (⟨"b", 7, 7⟩ : ConfigScript.SoldProduct) = ConfigScript.mkProduct 1 r ∧
      (∀ y ∈ l₁, y.usd_price < r.usd_price) ∧
      (∀ y ∈ ConfigScript.profitable_products 0 0 0 1 false 0 0
          [⟨"a", 5⟩, ⟨"b", 7⟩, ⟨"c", 7⟩], y.usd_price ≤ r.usd_price) ∧
      ConfigScript.profit_amount ⟨"b", 7, 7⟩ 0 = r.usd_price * 1 - 0 :=
  (C4_best_candidate_selection 0 0 0 1 false 0 0 [⟨"a", 5⟩, ⟨"b", 7⟩, ⟨"c", 7⟩]).2
    ⟨"b", 7, 7⟩ (by norm_num [ConfigScript.extract_highest_price_product,
      ConfigScript.profitable_products, ConfigScript.keptRow,
      ConfigScript.calculate_minimum_ebay_price, ConfigScript.pyMaxUsd,
      ConfigScript.maxStep, ConfigScript.mkProduct, List.filter_cons])

/-- C10: a row whose price is missing or parses to exactly 0 is excluded
before the filter and the profitability check (pre-dropping such rows is
observationally identical); a returned best product therefore has a
strictly positive USD price, and a 0-priced candidate is never selected
even when the computed minimum required price is 0 (the concrete case:
source 0, markup 0, fixed 0 gives minimum 0, and the 0-priced row still
yields `none`). -/
theorem C10_zero_price_never_selected :
    (∀ (m mk f rate : ℚ) (fEn : Bool) (mnF mxF : ℚ) (rows : List ConfigScript.SoldRow)
        (pr : ConfigScript.SoldProduct),
        ConfigScript.extract_highest_price_product m mk f rate fEn mnF mxF rows = some pr →
        0 < pr.usd_price) ∧
    (∀ (m mk f rate : ℚ) (fEn : Bool) (mnF mxF : ℚ) (rows : List ConfigScript.SoldRow),
        ConfigScript.extract_highest_price_product m mk f rate fEn mnF mxF rows =
          ConfigScript.extract_highest_price_product m mk f rate fEn mnF mxF
            (rows.filter (fun r => decide (0 < r.usd_price)))) ∧
    ConfigScript.extract_highest_price_product 0 0 0 150 false 0 0 [⟨"z", 0⟩] = none := by
  refine ⟨?_, ?_, by
    norm_num [ConfigScript.extract_highest_price_product,
      ConfigScript.profitable_products, ConfigScript.keptRow,
      ConfigScript.calculate_minimum_ebay_price, ConfigScript.pyMaxUsd,
      ConfigScript.maxStep, ConfigScript.mkProduct, List.filter_cons]⟩
  · intro m mk f rate fEn mnF mxF rows pr h
    obtain ⟨r, hmax, hpr⟩ := ConfigScript.eval_some_elim _ _ _ _ _ _ _ _ _ h
    have hmem := ConfigScript.pyMaxUsd_some_mem _ _ hmax
    have hk := (List.mem_filter.mp hmem).2
    have hpos := ConfigScript.keptRow_pos _ _ _ _ _ _ _ _ hk
    rw [hpr]
    exact hpos
  · intro m mk f rate fEn mnF mxF rows
    apply ConfigScript.eval_prefilter
    intro r hk
    exact decide_eq_true (ConfigScript.keptRow_pos _ _ _ _ _ _ _ _ hk)

/-- C10 witness: a concrete run returning a product, whose price the
theorem makes positive. -/
theorem C10_zero_price_never_selected_witness :
    (0 : ℚ) < (ConfigScript.SoldProduct.mk ("w") 42 42).usd_price :=
  C10_zero_price_never_selected.1 0 0 0 1 false 0 0 [⟨"w", 42⟩] ⟨"w", 42, 42⟩
    (by norm_num [ConfigScript.extract_highest_price_product,
      ConfigScript.profitable_products, ConfigScript.keptRow,
      ConfigScript.calculate_minimum_ebay_price, ConfigScript.pyMaxUsd,
      ConfigScript.maxStep, ConfigScript.mkProduct, List.filter_cons])

lemma findNumber_of_no_digit :
    ∀ l : List Char, (∀ c ∈ l, isDig c = false) → ConfigScript.findNumber l = none := by
  intro l
  induction l with
  | nil => intro _; rfl
  | cons c cs ih =>
    intro h
    rw [ConfigScript.findNumber]
    rw [h c (List.mem_cons_self _ _)]
    simp only [Bool.false_eq_true, if_false]
    exact ih (fun x hx => h x (List.mem_cons_of_mem _ hx))

/-- C5: `parse_price` is total by construction (the `float` call of the
source cannot fail on a match of `[\d,]+\.?\d*` with the commas already
removed); it returns the spec's values on the four examples, and `0` on
every string containing no digit at all. -/
theorem C5_parse_price_spec :
    ConfigScript.parse_price ("$1,625.00") = 1625 ∧
    ConfigScript.parse_price ("¥150,000") = 150000 ∧
    ConfigScript.parse_price ("") = 0 ∧
    ConfigScript.parse_price ("N/A") = 0 ∧
    (∀ s : String, (∀ c ∈ s.data, c.isDigit = false) →
      ConfigScript.parse_price s = 0) := by
  refine ⟨?_, ?_, rfl, rfl, ?_⟩
  · rw [show ConfigScript.parse_price ("$1,625.00") =
        ConfigScript.ratOfParts ['1', '6', '2', '5'] ['0', '0'] from rfl,
      ConfigScript.ratOfParts]
    norm_num [show ConfigScript.natOfDigits ['1', '6', '2', '5'] = 1625 from rfl,
      show ConfigScript.natOfDigits ['0', '0'] = 0 from rfl]
  · rw [show ConfigScript.parse_price ("¥150,000") =
        ConfigScript.ratOfParts ['1', '5', '0', '0', '0', '0'] [] from rfl,
      ConfigScript.ratOfParts]
    norm_num [show ConfigScript.natOfDigits ['1', '5', '0', '0', '0', '0'] = 150000 from rfl,
      show ConfigScript.natOfDigits [] = 0 from rfl]
  · intro s hs
    have h : ConfigScript.findNumber (s.data.filter (fun c => c ≠ ',')) = none := by
      apply findNumber_of_no_digit
      intro c hc
      exact hs c (List.mem_of_mem_filter hc)
    rw [ConfigScript.parse_price, h]
    split <;> rfl

/-- C5 witness: a digit-free string parses to zero. -/
theorem C5_parse_price_spec_witness : ConfigScript.parse_price ("abc") = 0 :=
  C5_parse_price_spec.2.2.2.2 ("abc") (by decide)

/-- C9 counterexample: a configuration file carrying
`markup_rate = 0.5` and `fixed_profit = 5000` but NO `exchange_rate`
key does not keep its present values: the `KeyError` on the absent key
makes `load_config` return the ENTIRE default configuration, so the
loaded markup rate is 0.2, not the 0.5 that was present.  This refutes
"each absent field individually falls back ... while fields that are
present keep their given values". -/
theorem C9_partial_config_counterexample :
    ConfigScript.load_config true
        ⟨some (1/2), some 5000, none, none, none, none⟩ =
      ConfigScript.default_config ∧
    (ConfigScript.load_config true
        ⟨some (1/2), some 5000, none, none, none, none⟩).markup_rate = some (1/5) ∧
    (⟨some (1/2), some 5000, none, none, none, none⟩ :
        ConfigScript.RawConfig).markup_rate = some (1/2) :=
  ⟨rfl, rfl, rfl⟩

/-- C9 amended: configuration loading never raises; when the file is
missing, unparseable, or ANY of the markup-rate / fixed-profit /
exchange-rate keys is absent, the WHOLE default configuration
(markup 0.2, fixed profit 3000, rate 150.0, no filter section) replaces
the given one, discarding present values; only when all three are
present is the configuration kept as given; the price-filter keys fall
back individually at their use site (enabled `false`, min 0,
max 999999). -/
theorem C9_config_defaults_amended :
    (∀ (fe : Bool) (c : ConfigScript.RawConfig),
        (ConfigScript.load_config fe c).markup_rate.isSome = true ∧
        (ConfigScript.load_config fe c).fixed_profit.isSome = true ∧
        (ConfigScript.load_config fe c).fixed_rate.isSome = true) ∧
    (∀ c : ConfigScript.RawConfig, c.markup_rate.isSome = true →
        c.fixed_profit.isSome = true → c.fixed_rate.isSome = true →
        ConfigScript.load_config true c = c) ∧
    (∀ (fe : Bool) (c : ConfigScript.RawConfig),
        c.markup_rate = none ∨ c.fixed_profit = none ∨ c.fixed_rate = none →
        ConfigScript.load_config fe c = ConfigScript.default_config) ∧
    (∀ c : ConfigScript.RawConfig,
        ConfigScript.load_config false c = ConfigScript.default_config) ∧
    ConfigScript.default_config.markup_rate = some (1/5) ∧
    ConfigScript.default_config.fixed_profit = some 3000 ∧
    ConfigScript.default_config.fixed_rate = some 150 ∧
    ConfigScript.cfg_filter_enabled ConfigScript.default_config = false ∧
    (∀ c : ConfigScript.RawConfig, c.enable_price_filter = none →
        ConfigScript.cfg_filter_enabled c = false) ∧
    (∀ c : ConfigScript.RawConfig, c.min_price = none →
        ConfigScript.cfg_min_filter c = 0) ∧
    (∀ c : ConfigScript.RawConfig, c.max_price = none →
        ConfigScript.cfg_max_filter c = 999999) := by
  refine ⟨?_, ?_, ?_, ?_, rfl, rfl, rfl, rfl, ?_, ?_, ?_⟩
  · intro fe c
    rcases c with ⟨mr, fp, fr, e, mn, mx⟩
    cases fe <;> cases mr <;> cases fp <;> cases fr <;>
      simp [ConfigScript.load_config, ConfigScript.default_config]
  · intro c h1 h2 h3
    rcases c with ⟨mr, fp, fr, e, mn, mx⟩
    cases mr <;> cases fp <;> cases fr <;> simp_all [ConfigScript.load_config]
  · intro fe c h
    rcases c with ⟨mr, fp, fr, e, mn, mx⟩
    cases fe <;> cases mr <;> cases fp <;> cases fr <;>
      simp_all [ConfigScript.load_config]
  · intro c
    rfl
  · intro c h
    rw [ConfigScript.cfg_filter_enabled, h]
    rfl
  · intro c h
    rw [ConfigScript.cfg_min_filter, h]
    rfl
  · intro c h
    rw [ConfigScript.cfg_max_filter, h]
    rfl

/-- C9 witness: a fully-specified profit/exchange configuration is kept
as given. -/
theorem C9_config_defaults_amended_witness :
    ConfigScript.load_config true ConfigScript.default_config =
      ConfigScript.default_config :=
  C9_config_defaults_amended.2.1 ConfigScript.default_config rfl rfl rfl

/-- C1 counterexample: on sample titles whose keyword counts tie at 1
for BVLGARI and CASIO (the maximum attained by two brands), the claim
requires the ambiguous outcome `'ALL'`; `detect_brand` instead returns
`'BVLGARI'`, because Python's `max` over the counts dict keeps the
first key on ties. -/
theorem C1_detect_brand_tie_counterexample :
    UniversalScript.keywordCount UniversalScript.bvlgari_keywords ("BVLGARI CASIO") = 1 ∧
    UniversalScript.keywordCount UniversalScript.casio_keywords ("BVLGARI CASIO") = 1 ∧
    UniversalScript.keywordCount UniversalScript.seiko_keywords ("BVLGARI CASIO") = 0 ∧
    UniversalScript.keywordCount UniversalScript.omega_keywords ("BVLGARI CASIO") = 0 ∧
    UniversalScript.detect_brand ["BVLGARI CASIO"] ≠ "ALL" ∧
    UniversalScript.detect_brand ["BVLGARI CASIO"] = "BVLGARI" := by
  refine ⟨rfl, rfl, rfl, rfl, by decide, rfl⟩

/-- C1 amended: `detect_brand` returns `'ALL'` exactly when all four
keyword counts are zero; otherwise it returns the FIRST brand in the
fixed order BVLGARI, GRAND_SEIKO, CASIO, OMEGA attaining the maximal
count — a tie is resolved in favour of the earlier brand, and a single
brand is returned whenever some count is positive, without requiring
strict dominance. -/
theorem C1_detect_brand_amended (titles : List String) (bc sc cc oc : ℕ)
    (hb : bc = UniversalScript.keywordCount UniversalScript.bvlgari_keywords
      (strUpper (joinSpace (titles.take 10))))
    (hs : sc = UniversalScript.keywordCount UniversalScript.seiko_keywords
      (strUpper (joinSpace (titles.take 10))))
    (hc : cc = UniversalScript.keywordCount UniversalScript.casio_keywords
      (strUpper (joinSpace (titles.take 10))))
    (ho : oc = UniversalScript.keywordCount UniversalScript.omega_keywords
      (strUpper (joinSpace (titles.take 10)))) :
    (bc = 0 ∧ sc = 0 ∧ cc = 0 ∧ oc = 0 → UniversalScript.detect_brand titles = "ALL") ∧
    (0 < bc ∧ sc ≤ bc ∧ cc ≤ bc ∧ oc ≤ bc →
      UniversalScript.detect_brand titles = "BVLGARI") ∧
    (bc < sc ∧ cc ≤ sc ∧ oc ≤ sc → UniversalScript.detect_brand titles = "GRAND_SEIKO") ∧
    (bc < cc ∧ sc < cc ∧ oc ≤ cc → UniversalScript.detect_brand titles = "CASIO") ∧
    (bc < oc ∧ sc < oc ∧ cc < oc → UniversalScript.detect_brand titles = "OMEGA") := by
  refine ⟨?_, ?_, ?_, ?_, ?_⟩ <;> intro h
  · simp [UniversalScript.detect_brand, UniversalScript.firstMaxPair,
      ← hb, ← hs, ← hc, ← ho, h.1, h.2.1, h.2.2.1, h.2.2.2]
  · simp [UniversalScript.detect_brand, UniversalScript.firstMaxPair,
      ← hb, ← hs, ← hc, ← ho, not_lt.mpr h.2.1, not_lt.mpr h.2.2.1,
      not_lt.mpr h.2.2.2, h.1]
  · have h1 : 0 < sc := lt_of_le_of_lt (Nat.zero_le bc) h.1
    simp [UniversalScript.detect_brand, UniversalScript.firstMaxPair,
      ← hb, ← hs, ← hc, ← ho, h.1, not_lt.mpr h.2.1, not_lt.mpr h.2.2, h1]
  · have h1 : 0 < cc := lt_of_le_of_lt (Nat.zero_le bc) h.1
    rcases Nat.lt_or_ge bc sc with hbs | hbs
    · simp [UniversalScript.detect_brand, UniversalScript.firstMaxPair,
        ← hb, ← hs, ← hc, ← ho, hbs, h.2.1, not_lt.mpr h.2.2, h1]
    · simp [UniversalScript.detect_brand, UniversalScript.firstMaxPair,
        ← hb, ← hs, ← hc, ← ho, not_lt.mpr hbs, h.1, not_lt.mpr h.2.2, h1]
  · have h1 : 0 < oc := lt_of_le_of_lt (Nat.zero_le bc) h.1
    rcases Nat.lt_or_ge bc sc with hbs | hbs
    · rcases Nat.lt_or_ge sc cc with hsc | hsc
      · simp [UniversalScript.detect_brand, UniversalScript.firstMaxPair,
          ← hb, ← hs, ← hc, ← ho, hbs, hsc, h.2.2, h1]
      · simp [UniversalScript.detect_brand, UniversalScript.firstMaxPair,
          ← hb, ← hs, ← hc, ← ho, hbs, not_lt.mpr hsc, h.2.1, h1]
    · rcases Nat.lt_or_ge bc cc with hbc | hbc
      · simp [UniversalScript.detect_brand, UniversalScript.firstMaxPair,
          ← hb, ← hs, ← hc, ← ho, not_lt.mpr hbs, hbc, h.2.2, h1]
      · simp [UniversalScript.detect_brand, UniversalScript.firstMaxPair,
          ← hb, ← hs, ← hc, ← ho, not_lt.mpr hbs, not_lt.mpr hbc, h.1, h1]

/-- C1 witness: a sample mentioning only OMEGA is detected as OMEGA. -/
theorem C1_detect_brand_amended_witness :
    UniversalScript.detect_brand ["OMEGA watch"] = "OMEGA" :=
  (C1_detect_brand_amended ["OMEGA watch"] 0 0 0 1 rfl rfl rfl rfl).2.2.2.2 (by decide)

/-- C7 counterexample: requesting pattern rules for the unregistered
brand `ROLEX` raises nothing.  The extraction loop's return type has no
error outcome at all (`continue` after a printed warning); the request
behaves exactly as "silently skipped / an empty rule set": extraction
over a row containing a BVLGARI model returns the empty candidate list,
and prepending the unknown brand to a registered one leaves the result
unchanged.  This refutes "fails fast with an UnknownBrandError". -/
theorem C7_unknown_brand_counterexample :
    UniversalScript.lookupBrand ("ROLEX") = none ∧
    UniversalScript.extract_model_numbers ["ROLEX"]
      [⟨"BVLGARI BB23SS", "1000", "u"⟩] = [] ∧
    UniversalScript.extract_model_numbers ["ROLEX", "BVLGARI"] [⟨"BB23SS", "1", "u"⟩] =
      UniversalScript.extract_model_numbers ["BVLGARI"] [⟨"BB23SS", "1", "u"⟩] :=
  ⟨rfl, rfl, rfl⟩

/-- C7 amended: a brand not registered in `brand_patterns` is skipped
(contributing no candidates, with processing continuing over the
remaining brands); no error outcome exists. -/
theorem C7_unknown_brand_amended (b : String) (bs : List String)
    (rows : List UniversalScript.URow) (h : UniversalScript.lookupBrand b = none) :
    UniversalScript.extract_model_numbers (b :: bs) rows =
      UniversalScript.extract_model_numbers bs rows := by
  simp [UniversalScript.extract_model_numbers, h]

/-- C7 witness: `ROLEX` in front of `GRAND_SEIKO` changes nothing. -/
theorem C7_unknown_brand_amended_witness :
    UniversalScript.extract_model_numbers ["ROLEX", "GRAND_SEIKO"]
        [⟨"SBGX263", "1", "u"⟩] =
      UniversalScript.extract_model_numbers ["GRAND_SEIKO"] [⟨"SBGX263", "1", "u"⟩] :=
  C7_unknown_brand_amended ("ROLEX") ["GRAND_SEIKO"] [⟨"SBGX263", "1", "u"⟩] rfl

/-- C6 counterexample: on the title `ABC123 456DEF`, the ordered match
list is `["ABC123", "456DEF"]` — `ABC123` produced by the 7th registry
pattern `\b[A-Z]{2,4}[0-9]{3,4}[A-Z]?\b` and `456DEF` only by the later
catch-all `\b[0-9]{3,6}[A-Z]{2,4}\b` — yet the value handed downstream
is `list(set(found_models))[0]`, and `["456DEF", "ABC123"]` is a valid
hash-set ordering of that set whose head is NOT the first pattern's
match.  CPython's per-process hash randomisation means no particular
ordering is guaranteed, so "the first pattern's match is surfaced" does
not hold of the code. -/
theorem C6_first_pattern_counterexample :
    ConfigScript.extract_model_numbers_found ("ABC123 456DEF") = ["ABC123", "456DEF"] ∧
    isSetDedup (ConfigScript.extract_model_numbers_found ("ABC123 456DEF"))
      ["456DEF", "ABC123"] ∧
    List.head? ["456DEF", "ABC123"] ≠ some ("ABC123") :=
  ⟨rfl, by decide, by decide⟩

/-- C6 amended: the single model handed downstream
(`list(set(found_models))[0]`) is SOME element of the set of all
pattern matches — the order of the deduplicated list is unspecified, so
when two or more distinct models match, any of them may be surfaced,
registry order notwithstanding; only when all matches agree on one
model is that model guaranteed to be surfaced. -/
theorem C6_extracted_model_amended (text : String) (out : List String)
    (h : isSetDedup (ConfigScript.extract_model_numbers_found text) out) :
    (∀ m, out.head? = some m → m ∈ ConfigScript.extract_model_numbers_found text) ∧
    (∀ m, ConfigScript.extract_model_numbers_found text ≠ [] →
      (∀ x ∈ ConfigScript.extract_model_numbers_found text, x = m) → out = [m]) := by
  obtain ⟨hnd, hsub, hsup⟩ := h
  constructor
  · intro m hm
    apply hsub
    cases out with
    | nil => simp at hm
    | cons a t =>
      rw [List.head?_cons, Option.some.injEq] at hm
      rw [← hm]
      exact List.mem_cons_self _ _
  · intro m hne hall
    have hm : m ∈ out := by
      cases hFound : ConfigScript.extract_model_numbers_found text with
      | nil => exact absurd hFound hne
      | cons a t =>
        have ha : a ∈ ConfigScript.extract_model_numbers_found text := by
          rw [hFound]
          exact List.mem_cons_self _ _
        have ham := hall a ha
        rw [← ham]
        exact hsup a ha
    cases out with
    | nil => simp at hm
    | cons a t =>
      have ha : a = m := hall a (hsub a (List.mem_cons_self _ _))
      subst ha
      cases t with
      | nil => rfl
      | cons b t2 =>
        have hb : b = a := hall b (hsub b (by simp))
        have hnotin : a ∉ b :: t2 := (List.nodup_cons.mp hnd).1
        have hin : a ∈ b :: t2 := by
          rw [← hb]
          exact List.mem_cons_self _ _
        exact absurd hin hnotin

/-- C6 witness: at the counterexample title, the surfaced head of the
ordering `["456DEF", "ABC123"]` is indeed one of the matches. -/
theorem C6_extracted_model_amended_witness :
    ("456DEF" : String) ∈ ConfigScript.extract_model_numbers_found ("ABC123 456DEF") :=
  (C6_extracted_model_amended ("ABC123 456DEF") ["456DEF", "ABC123"] (by decide)).1
    ("456DEF") rfl

lemma setDedup_nil_out (out : List String) (h : isSetDedup [] out) : out = [] := by
  obtain ⟨-, hsub, -⟩ := h
  cases out with
  | nil => rfl
  | cons a t => exact absurd (hsub a (List.mem_cons_self _ _)) (by simp)

/-- C8: model extraction is total (no exception path exists in the
embedding, matching the source's straight-line regex loop) and yields
the empty candidate list — the no-model outcome — both on the empty
string (the `if not text` short-circuit) and on every string none of
whose registered patterns matches after boilerplate stripping. -/
theorem C8_no_match_no_model :
    (∀ out : List String,
        isSetDedup (ConfigScript.extract_model_numbers_found ("")) out → out = []) ∧
    (∀ (text : String) (out : List String),
        ConfigScript.configPatterns.all
          (fun p => (findallTop p (ConfigScript.stripThumb text)).isEmpty) = true →
        isSetDedup (ConfigScript.extract_model_numbers_found text) out → out = []) := by
  constructor
  · intro out h
    exact setDedup_nil_out out h
  · intro text out hall h
    have hfound : ConfigScript.extract_model_numbers_found text = [] := by
      rw [ConfigScript.extract_model_numbers_found]
      split
      · rfl
      · rw [ConfigScript.found_models, List.flatten_eq_nil_iff]
        intro l hl
        rw [List.mem_map] at hl
        obtain ⟨p, hp, hpl⟩ := hl
        have he := List.all_eq_true.mp hall p hp
        rw [List.isEmpty_iff] at he
        rw [← hpl]
        cases p with
        | plain q => rw [ConfigScript.patModels]; exact he
        | capD alts lo hi => simp [ConfigScript.patModels, he]
    rw [hfound] at h
    exact setDedup_nil_out out h

/-- C8 witness: `hello world` matches no registered pattern and its
deduplicated extraction result is forced to be empty. -/
theorem C8_no_match_no_model_witness :
    ConfigScript.extract_model_numbers_found ("hello world") = [] :=
  C8_no_match_no_model.2 ("hello world")
    (ConfigScript.extract_model_numbers_found ("hello world")) (by decide) (by decide)
